import Mathlib

/-
  Verification development for the battery model-extraction repository
  (discharge_data.py, models.py).

  The Python code is shallowly embedded over exact rational arithmetic (ℚ in
  place of IEEE floats).  Fallible Python code (attribute lookups on objects
  that may lack the attribute, library validation errors, parse failures) is
  embedded in the `Except PyError` monad, with evaluation order matching the
  Python expression order.
-/

set_option maxHeartbeats 1000000

/-- Decidable equality on `Except`, used to evaluate the embedded code on
concrete inputs. -/
instance {ε α : Type _} [DecidableEq ε] [DecidableEq α] : DecidableEq (Except ε α) :=
  fun a b =>
    match a, b with
    | .error e, .error f =>
        if h : e = f then .isTrue (congrArg Except.error h)
        else .isFalse (fun hh => h (Except.error.inj hh))
    | .ok x, .ok y =>
        if h : x = y then .isTrue (congrArg Except.ok h)
        else .isFalse (fun hh => h (Except.ok.inj hh))
    | .error _, .ok _ => .isFalse (fun hh => Except.noConfusion hh)
    | .ok _, .error _ => .isFalse (fun hh => Except.noConfusion hh)

/-- Python attribute names that appear in attribute lookups modelled below. -/
inductive PyAttr where
  | nominal_capacity_mAh
  | w_vec
  | Ne
  | Nr
  deriving DecidableEq, Repr

/-- Exceptions that the embedded code can raise.  The first four correspond to
Python builtin exceptions actually raised by the code paths modelled here
(AttributeError from a missing attribute, ValueError from `float` parsing and
from sklearn input validation, TypeError from `np.polyfit` on an empty vector,
IndexError from `[-1]` on an empty list).  The remaining constructors are the
error classes named by the specification's error taxonomy; the source under
`src/` defines none of them, and they are included only so that statements
about them can be written down. -/
inductive PyError where
  | attributeError (a : PyAttr)
  | valueError
  | typeError
  | indexError
  | invalidConventionError
  | malformedSourceError
  | insufficientRatesError
  | insufficientDataError
  | modelNotFitError
  deriving DecidableEq, Repr

/-- The `DischargeVar` enum of discharge_data.py: the declared meaning of the
first spreadsheet column. -/
inductive DischargeVar where
  | DOD
  | SOC
  | MAH
  | AH
  deriving DecidableEq, Repr

/-- One row of the long-format table built by `DischargeData.load_data`:
columns DoD, SoC, V, C-rate, I [A]. -/
structure Row where
  dod : ℚ
  soc : ℚ
  v : ℚ
  c_rate : ℚ
  current : ℚ
  deriving DecidableEq, Repr

/-- The state of a `DischargeData` object: the `_data` table, the nominal
capacity in Ah, and the (mutable) cropping bounds.  Mutating `dod_lower` /
`dod_upper` after construction is represented by quantifying over structures
with arbitrary bound values. -/
structure DischargeData where
  data : List Row
  nominal_capacity_Ah : ℚ
  dod_lower : ℚ
  dod_upper : ℚ
  deriving DecidableEq, Repr

/-- The boolean-mask filter of `DischargeData.data_cropped`:
`self.data[(self.data['DoD']>self.dod_lower) & (self.data['DoD']<self.dod_upper)]`.
Both inequalities are strict, exactly as in the source. -/
def cropFilter (rows : List Row) (lw up : ℚ) : List Row :=
  rows.filter (fun r => decide (lw < r.dod) && decide (r.dod < up))

/-- The `data_cropped` property (discharge_data.py line 137), as the list of
rows it returns.  The `.copy()` reference semantics are modelled separately by
`croppedAlloc` below. -/
def dataCropped (d : DischargeData) : List Row :=
  cropFilter d.data d.dod_lower d.dod_upper

/-- A heap of pandas DataFrames, for stating the copy (frame) property of
`data_cropped`.  Each table lives at an index; `.copy()` allocates a fresh
index. -/
structure TableStore where
  tables : List (List Row)
  deriving DecidableEq, Repr

/-- A `DischargeData` object whose `_data` attribute is a reference into a
`TableStore` rather than an inline list. -/
structure DischargeDataRef where
  dataRef : ℕ
  nominal_capacity_Ah : ℚ
  dod_lower : ℚ
  dod_upper : ℚ
  deriving DecidableEq, Repr

/-- Read a table out of the store. -/
def storeGet (s : TableStore) (i : ℕ) : List Row :=
  s.tables.getD i []

/-- Overwrite the table at index `i` (an in-place pandas mutation of that
DataFrame). -/
def storeSet (s : TableStore) (i : ℕ) (t : List Row) : TableStore :=
  ⟨s.tables.set i t⟩

/-- `data_cropped` with reference semantics: filter the stored `_data` table
and return an independent copy (`.copy()` in the source allocates a fresh
DataFrame).  Returns the rows of the copy, the fresh reference, and the
extended store. -/
def croppedAlloc (d : DischargeDataRef) (s : TableStore) :
    List Row × ℕ × TableStore :=
  let t := cropFilter (storeGet s d.dataRef) d.dod_lower d.dod_upper
  (t, s.tables.length, ⟨s.tables ++ [t]⟩)

/-- One Excel sheet as seen by `load_data`: the sheet name, and the rows of
the two data columns (`x_col`, `V`). -/
def Sheet : Type := String × List (ℚ × ℚ)

/-- Split a character list on runs of whitespace, dropping empty pieces —
Python's `str.split()` with no separator argument. -/
def splitWsAux : List Char → List Char → List (List Char)
  | [], acc => if acc.isEmpty then [] else [acc.reverse]
  | c :: rest, acc =>
      if c.isWhitespace then
        if acc.isEmpty then splitWsAux rest []
        else acc.reverse :: splitWsAux rest []
      else splitWsAux rest (c :: acc)

/-- Python `label.split()` on the characters of a sheet name. -/
def pySplitWs (cs : List Char) : List (List Char) :=
  splitWsAux cs []

/-- Decimal digits to a natural number, most significant first. -/
def digitsToNat (ds : List Char) : ℕ :=
  ds.foldl (fun n c => 10 * n + (c.toNat - 48)) 0

/-- Python's `float` constructor on a finite decimal literal: optional sign,
digits with an optional decimal point (at least one digit overall), optional
`e`/`E` exponent with optional sign and at least one digit.  `none` models a
raised ValueError.  (The special payloads `inf`/`nan` and digit-group
underscores accepted by CPython lie outside the rational embedding and are
not modelled; no claim depends on them.) -/
def pyFloat (cs : List Char) : Option ℚ :=
  let (sgn, cs₁) : ℚ × List Char :=
    match cs with
    | '+' :: r => (1, r)
    | '-' :: r => (-1, r)
    | r => (1, r)
  let intPart := cs₁.takeWhile Char.isDigit
  let cs₂ := cs₁.dropWhile Char.isDigit
  let (fracPart, cs₃) : List Char × List Char :=
    match cs₂ with
    | '.' :: r => (r.takeWhile Char.isDigit, r.dropWhile Char.isDigit)
    | r => ([], r)
  if intPart.isEmpty && fracPart.isEmpty then none
  else
    let mant : ℚ := (digitsToNat (intPart ++ fracPart) : ℚ) / (10 : ℚ) ^ fracPart.length
    match cs₃ with
    | [] => some (sgn * mant)
    | e :: r =>
        if e == 'e' || e == 'E' then
          let (esgn, r₁) : ℤ × List Char :=
            match r with
            | '+' :: rr => (1, rr)
            | '-' :: rr => (-1, rr)
            | rr => (1, rr)
          let eds := r₁.takeWhile Char.isDigit
          if r₁.dropWhile Char.isDigit = [] && !eds.isEmpty then
            some (sgn * mant * (10 : ℚ) ^ (esgn * (digitsToNat eds : ℤ)))
          else none
        else none

/-- `float(sheet.split()[-1])` (discharge_data.py line 85): `[-1]` on an empty
list raises IndexError; an unparseable numeral raises ValueError. -/
def parseRate (label : String) : Except PyError ℚ :=
  match (pySplitWs label.data).getLast? with
  | none => .error .indexError
  | some tok =>
      match pyFloat tok with
      | none => .error .valueError
      | some q => .ok q

/-- The per-sheet conversion of `load_data` after the rate has been parsed
(discharge_data.py lines 90-115), one branch per `DischargeVar` value, with
the derived `C-rate` and `I [A]` columns. -/
def loadCurve (conv : DischargeVar) (cap c : ℚ) (pts : List (ℚ × ℚ)) : List Row :=
  match conv with
  | .SOC => pts.map (fun p =>
      { soc := p.1, dod := 1 - p.1, v := p.2, c_rate := c, current := c * cap })
  | .DOD => pts.map (fun p =>
      { dod := p.1, soc := 1 - p.1, v := p.2, c_rate := c, current := c * cap })
  | .MAH => pts.map (fun p =>
      { dod := p.1 / (cap * 1000), soc := 1 - p.1 / (cap * 1000), v := p.2,
        c_rate := c, current := c * cap })
  | .AH => pts.map (fun p =>
      { dod := p.1 / cap, soc := 1 - p.1 / cap, v := p.2,
        c_rate := c, current := c * cap })

/-- `DischargeData.load_data`: loop over the sheets in order, parse each
sheet's rate from its name, convert the sheet, and concatenate everything
into one long table.  The first sheet whose name fails to parse aborts the
load with the corresponding exception.  No check on the number of samples per
sheet is performed anywhere in the loop. -/
def loadData (conv : DischargeVar) (cap : ℚ) : List Sheet → Except PyError (List Row)
  | [] => .ok []
  | s :: rest =>
      match parseRate s.1 with
      | .error e => .error e
      | .ok c =>
          match loadData conv cap rest with
          | .error e => .error e
          | .ok more => .ok (loadCurve conv cap c s.2 ++ more)

/-- Modelled from the spec: the claimed raw-value-to-DoD conversion table —
DoD passes through, SoC complements, Ah divides by the nominal capacity, mAh
divides by a thousand times the nominal capacity.  Written from the claim's
words, to be compared against `loadCurve`. -/
def specDod (conv : DischargeVar) (cap x : ℚ) : ℚ :=
  match conv with
  | .DOD => x
  | .SOC => 1 - x
  | .AH => x / cap
  | .MAH => x / (cap * 1000)

/-- Modelled from the spec: the claimed full sample produced from one raw
`(x, voltage)` pair — `dod` from `specDod`, `soc = 1 - dod`,
`current = rate * nominal_capacity`. -/
def specSample (conv : DischargeVar) (cap c : ℚ) (p : ℚ × ℚ) : Row :=
  { dod := specDod conv cap p.1
    soc := 1 - specDod conv cap p.1
    v := p.2
    c_rate := c
    current := c * cap }

/-- The attribute lookup `self.data.nominal_capacity_mAh` performed by
models.py (lines 33, 67 and 121).  `DischargeData` defines only
`nominal_capacity_Ah` (discharge_data.py line 72) and never an attribute
named `nominal_capacity_mAh`, so in Python this lookup unconditionally
raises `AttributeError`. -/
def dischargeDataGetMAh (_ : DischargeData) : Except PyError ℚ :=
  .error (.attributeError .nominal_capacity_mAh)

/-- Dot product of two rational vectors (trailing entries of the longer
vector are ignored; all uses pair vectors of equal length). -/
def dot (a b : List ℚ) : ℚ :=
  (List.zipWith (fun x y => x * y) a b).sum

/-- Row operation: subtract `k` times row `b` from row `a`. -/
def rowSub (a : List ℚ) (k : ℚ) (b : List ℚ) : List ℚ :=
  List.zipWith (fun x y => x - k * y) a b

/-- Gauss–Jordan elimination on an augmented matrix, pivoting over columns
`col, col+1, …` while `fuel` lasts (the augmented column is never pivoted
on).  Returns the reduced pivot rows paired with their pivot columns, in
increasing pivot-column order. -/
def rrefGo : ℕ → ℕ → List (ℕ × List ℚ) → List (List ℚ) → List (ℕ × List ℚ)
  | 0, _, acc, _ => acc.reverse
  | fuel + 1, col, acc, rest =>
      match rest.findIdx? (fun row => row.getD col 0 != 0) with
      | none => rrefGo fuel (col + 1) acc rest
      | some i =>
          let r := rest.getD i []
          let r' := r.map (fun v => v / r.getD col 0)
          let rest' := (rest.eraseIdx i).map (fun q => rowSub q (q.getD col 0) r')
          let acc' := acc.map (fun pr => (pr.1, rowSub pr.2 (pr.2.getD col 0) r'))
          rrefGo fuel (col + 1) ((col, r') :: acc') rest'

/-- Reduced row-echelon form of an augmented matrix with `ncols` coefficient
columns. -/
def rref (ncols : ℕ) (rows : List (List ℚ)) : List (ℕ × List ℚ) :=
  rrefGo ncols 0 [] rows

/-- Component `j` of the particular solution read off an RREF: the augmented
entry of the pivot row for column `j`, and `0` for free columns. -/
def solLookup (res : List (ℕ × List ℚ)) (n j : ℕ) : ℚ :=
  match res.find? (fun pr => pr.1 == j) with
  | some pr => pr.2.getD n 0
  | none => 0

/-- Component `j` of the null-space basis vector associated with free column
`f` of an RREF. -/
def nullEntry (res : List (ℕ × List ℚ)) (f j : ℕ) : ℚ :=
  if j = f then 1
  else
    match res.find? (fun pr => pr.1 == j) with
    | some pr => -(pr.2.getD f 0)
    | none => 0

/-- Minimum-norm least-squares solution of `A w ≈ y` for a column-major
matrix `A`, the exact-arithmetic counterpart of the LAPACK `lstsq` kernel
that both `numpy.polyfit` and sklearn's `LinearRegression` call: solve the
(always consistent) normal equations `AᵀA w = Aᵀy` and subtract the
projection of the particular solution onto the null space of `AᵀA`, which
yields the least-squares solution of smallest euclidean norm.  The result
always has one entry per column of `A`. -/
def lstsqMinNorm (cols : List (List ℚ)) (y : List ℚ) : List ℚ :=
  let n := cols.length
  let col := fun j => cols.getD j []
  let aug := (List.range n).map (fun i =>
    ((List.range n).map (fun j => dot (col i) (col j))) ++ [dot (col i) y])
  let res := rref n aug
  let pivotCols := res.map (fun pr => pr.1)
  let frees := (List.range n).filter (fun j => !(pivotCols.contains j))
  let nf := frees.length
  let fcol := fun a => frees.getD a 0
  let nvec := fun a j => nullEntry res (fcol a) j
  let w0 := fun j => solLookup res n j
  let dotIdx := fun (f g : ℕ → ℚ) => ((List.range n).map (fun j => f j * g j)).sum
  let aug2 := (List.range nf).map (fun a =>
    ((List.range nf).map (fun b => dotIdx (nvec a) (nvec b))) ++ [dotIdx (nvec a) w0])
  let res2 := rref nf aug2
  let t := fun a => solLookup res2 nf a
  (List.range n).map (fun j =>
    w0 j - ((List.range nf).map (fun a => t a * nvec a j)).sum)

/-- sklearn `LinearRegression(fit_intercept=True).fit`: center the columns
and the target, solve the centered system by least squares, and recover the
intercept from the means.  Returns `(intercept_, coef_)`. -/
def linReg (cols : List (List ℚ)) (y : List ℚ) : ℚ × List ℚ :=
  let m : ℚ := (y.length : ℚ)
  let colMean := fun (c : List ℚ) => c.sum / m
  let Xc := cols.map (fun c => c.map (fun v => v - colMean c))
  let yc := y.map (fun v => v - y.sum / m)
  let coef := lstsqMinNorm Xc yc
  let intercept := y.sum / m - dot (cols.map colMean) coef
  (intercept, coef)

/-- The state of a `PolynomialFit` object.  `Ne`, `Nr` and `w_vec` are the
attributes assigned by `fit_model`; before the first successful `fit_model`
they do not exist on the object, which the `Option` models (`none` = reading
the attribute raises AttributeError). -/
structure PolyFit where
  data : DischargeData
  Ne : Option ℕ
  Nr : Option ℕ
  w_vec : Option (List ℚ)
  deriving DecidableEq, Repr

/-- `PolynomialFit.__init__`: stores the dataset; no fit attributes yet. -/
def polyInit (d : DischargeData) : PolyFit :=
  { data := d, Ne := none, Nr := none, w_vec := none }

/-- `PolynomialFit.get_X` (models.py lines 78-89) as a column-major feature
matrix over the cropped view: columns `DoD^1 … DoD^Ne` followed by
`-I·DoD^0 … -I·DoD^Nr`. -/
def polyGetX (d : DischargeData) (Ne Nr : ℕ) : List (List ℚ) :=
  let rows := dataCropped d
  ((List.range Ne).map (fun k => rows.map (fun r => r.dod ^ (k + 1)))) ++
    ((List.range (Nr + 1)).map (fun k => rows.map (fun r => -r.current * r.dod ^ k)))

/-- The `w_vec` attribute computed by a successful `fit_model`: the sklearn
intercept followed by the fitted coefficients, `w_vec = [intercept_] + coef_`
(models.py lines 97-99). -/
def wVecOf (d : DischargeData) (Ne Nr : ℕ) : List ℚ :=
  let p := linReg (polyGetX d Ne Nr) ((dataCropped d).map (fun r => r.v))
  p.1 :: p.2

/-- The state written by a successful `fit_model Ne Nr`. -/
def polyFitted (Ne Nr : ℕ) (st : PolyFit) : PolyFit :=
  { st with Ne := some Ne, Nr := some Nr, w_vec := some (wVecOf st.data Ne Nr) }

/-- `PolynomialFit.fit_model` (models.py lines 91-99): regress the cropped
voltage column on `get_X(Ne, Nr)` with an intercept.  sklearn's input
validation raises ValueError when the cropped view has zero rows; on any
nonempty cropped view the underlying `lstsq` kernel succeeds (it solves
rank-deficient systems by minimum-norm, so no row-versus-column count check
happens anywhere).  In the zero-row case CPython would still have assigned
`self.Ne`/`self.Nr` before the raise while leaving `w_vec` unset; since every
accessor reads `w_vec` first, dropping that partial write (as the `Except`
monad does) is observationally equivalent. -/
def polyFitModel (Ne Nr : ℕ) (st : PolyFit) : Except PyError PolyFit :=
  if (dataCropped st.data).isEmpty then .error .valueError
  else .ok (polyFitted Ne Nr st)

/-- `PolynomialFit.alpha_coeff`: `self.w_vec[0:self.Ne+1]`; reading `w_vec`
(first) or `Ne` on an unfit model raises AttributeError. -/
def alphaCoeff (st : PolyFit) : Except PyError (List ℚ) :=
  match st.w_vec with
  | none => .error (.attributeError .w_vec)
  | some w =>
      match st.Ne with
      | none => .error (.attributeError .Ne)
      | some ne => .ok (w.take (ne + 1))

/-- `PolynomialFit.beta_coeff`: `self.w_vec[self.Ne+1::]`. -/
def betaCoeff (st : PolyFit) : Except PyError (List ℚ) :=
  match st.w_vec with
  | none => .error (.attributeError .w_vec)
  | some w =>
      match st.Ne with
      | none => .error (.attributeError .Ne)
      | some ne => .ok (w.drop (ne + 1))

/-- `np.polyval(p, x)`: Horner evaluation with the highest-degree coefficient
first. -/
def polyvalNp (p : List ℚ) (x : ℚ) : ℚ :=
  p.foldl (fun acc c => acc * x + c) 0

/-- `PolynomialFit.OCV`: evaluate the alpha polynomial, reversing the
constant-first coefficient vector because `np.polyval` expects the highest
degree first (models.py lines 109-112). -/
def polyOCV (st : PolyFit) (dod : ℚ) : Except PyError ℚ :=
  (alphaCoeff st).map (fun a => polyvalNp a.reverse dod)

/-- `PolynomialFit.Rs` (models.py lines 114-117). -/
def polyRs (st : PolyFit) (dod : ℚ) : Except PyError ℚ :=
  (betaCoeff st).map (fun b => polyvalNp b.reverse dod)

/-- `PolynomialFit.modeled_terminal_voltage` (models.py lines 119-121):
`self.OCV(dod) - c_rate*(self.data.nominal_capacity_mAh/1000)*self.Rs(dod)`,
in Python's evaluation order — `OCV` first, then the (failing) attribute
lookup, then `Rs`. -/
def polyMTV (st : PolyFit) (dod c_rate : ℚ) : Except PyError ℚ :=
  match polyOCV st dod with
  | .error e => .error e
  | .ok ocv =>
      match dischargeDataGetMAh st.data with
      | .error e => .error e
      | .ok mAh =>
          match polyRs st dod with
          | .error e => .error e
          | .ok rs => .ok (ocv - c_rate * (mAh / 1000) * rs)

/-- Modelled from the spec's words for the polynomial claims: evaluate a
constant-term-first coefficient vector as `Σ cᵢ · xⁱ`. -/
def evalPolyConstFirst (c : List ℚ) (x : ℚ) : ℚ :=
  ((List.range c.length).map (fun i => c.getD i 0 * x ^ i)).sum

/-- `pd.unique`: the distinct values of a column, keeping first-occurrence
order. -/
def dedupFirst (l : List ℚ) : List ℚ :=
  l.foldl (fun acc v => if v ∈ acc then acc else acc ++ [v]) []

/-- The state of a constructed `NonParametric` object: the dataset, the
distinct C-rates, and `x`, the vector of currents computed at construction. -/
structure NonParam where
  data : DischargeData
  c_rates : List ℚ
  x : List ℚ
  deriving DecidableEq, Repr

/-- `NonParametric.__init__` (models.py lines 26-33): extract the distinct
C-rates of the full table, then compute
`self.x = self.c_rates*(self.data.nominal_capacity_mAh/1000)` — which reads
the nonexistent `nominal_capacity_mAh` attribute and therefore raises
AttributeError before the object is ever completed. -/
def npInit (d : DischargeData) : Except PyError NonParam :=
  let c_rates := dedupFirst (d.data.map (fun r => r.c_rate))
  match dischargeDataGetMAh d with
  | .error e => .error e
  | .ok mAh =>
      .ok { data := d, c_rates := c_rates
            x := c_rates.map (fun c => c * (mAh / 1000)) }

/-- Insert a point into a list sorted by abscissa (stable for ties). -/
def insertByX (p : ℚ × ℚ) : List (ℚ × ℚ) → List (ℚ × ℚ)
  | [] => [p]
  | q :: rest => if p.1 < q.1 then p :: q :: rest else q :: insertByX p rest

/-- Sort interpolation points by abscissa, as `interp1d` does internally. -/
def sortByX (l : List (ℚ × ℚ)) : List (ℚ × ℚ) :=
  l.foldr insertByX []

/-- Value at `t` of the line through `p` and `q`.  (For a degenerate segment
with equal abscissae, rational division by zero makes this `p.2`, where IEEE
arithmetic would give nan; no claim touches that case.) -/
def segEval (p q : ℚ × ℚ) (t : ℚ) : ℚ :=
  p.2 + (q.2 - p.2) * (t - p.1) / (q.1 - p.1)

/-- Walk the sorted knots: evaluate on the first segment whose upper knot is
`≥ t`, or on the last segment when `t` lies beyond the data (that is
`fill_value='extrapolate'`: points below the range use the first segment,
points above use the last). -/
def interpGo (t : ℚ) : ℚ × ℚ → ℚ × ℚ → List (ℚ × ℚ) → ℚ
  | p, q, [] => segEval p q t
  | p, q, r :: rest => if t ≤ q.1 then segEval p q t else interpGo t q r rest

/-- `scipy.interpolate.interp1d(xs, ys, fill_value='extrapolate')` applied to
one point: piecewise-linear with extrapolation.  Construction raises
ValueError when fewer than 2 points are supplied. -/
def interp1dLinear (pts : List (ℚ × ℚ)) (t : ℚ) : Except PyError ℚ :=
  match sortByX pts with
  | p :: q :: rest => .ok (interpGo t p q rest)
  | _ => .error .valueError

/-- `NonParametric._get_v_terminal` (models.py lines 42-48): restrict the
cropped view to one C-rate's curve and interpolate its voltage at `dod`. -/
def npGetVTerminal (st : NonParam) (dod c : ℚ) : Except PyError ℚ :=
  let df := (dataCropped st.data).filter (fun r => r.c_rate == c)
  interp1dLinear (df.map (fun r => (r.dod, r.v))) dod

/-- `np.polyfit(x, y, deg=1)`: least-squares fit of a degree-1 polynomial,
returned highest-degree-first as `[slope, intercept]`.  numpy raises
TypeError on an empty `x`; otherwise the `lstsq` kernel always produces an
answer (rank-deficient systems get the minimum-norm solution — numpy's
column rescaling does not change the full-rank solution). -/
def polyfit1 (x y : List ℚ) : Except PyError (List ℚ) :=
  if x.isEmpty then .error .typeError
  else .ok (lstsqMinNorm [x, x.map (fun _ => 1)] y)

/-- `NonParametric._get_params` (models.py lines 50-55): interpolate every
curve at `dod`, fit a line to `(self.x, y)`, and return `(-slope, intercept)`
as `(rs, ocv)`. -/
def npGetParams (st : NonParam) (dod : ℚ) : Except PyError (ℚ × ℚ) :=
  match st.c_rates.mapM (npGetVTerminal st dod) with
  | .error e => .error e
  | .ok y =>
      match polyfit1 st.x y with
      | .error e => .error e
      | .ok p => .ok (-(p.getD 0 0), p.getD 1 0)

/-- `NonParametric(...).OCV(dod)`: construct the estimator, then query it. -/
def npOCV (d : DischargeData) (dod : ℚ) : Except PyError ℚ :=
  match npInit d with
  | .error e => .error e
  | .ok st =>
      match npGetParams st dod with
      | .error e => .error e
      | .ok p => .ok p.2

/-- `NonParametric(...).Rs(dod)`: construct the estimator, then query it. -/
def npRs (d : DischargeData) (dod : ℚ) : Except PyError ℚ :=
  match npInit d with
  | .error e => .error e
  | .ok st =>
      match npGetParams st dod with
      | .error e => .error e
      | .ok p => .ok p.1

/-- `NonParametric(...).modeled_terminal_voltage(dod, c_rate)` (models.py
lines 65-67), in Python evaluation order: `OCV` first, then the
`nominal_capacity_mAh` lookup, then `Rs`. -/
def npMTV (d : DischargeData) (dod c_rate : ℚ) : Except PyError ℚ :=
  match npInit d with
  | .error e => .error e
  | .ok st =>
      match npGetParams st dod with
      | .error e => .error e
      | .ok pOCV =>
          match dischargeDataGetMAh st.data with
          | .error e => .error e
          | .ok mAh =>
              match npGetParams st dod with
              | .error e => .error e
              | .ok pRs => .ok (pOCV.2 - c_rate * (mAh / 1000) * pRs.1)

/-- Concrete fixture: a single-rate dataset (nominal capacity 2 Ah, default
bounds) whose two rows lie strictly inside the cropping window. -/
def dFit : DischargeData :=
  { data := [{ dod := 1/4, soc := 3/4, v := 4, c_rate := 1, current := 2 },
             { dod := 3/4, soc := 1/4, v := 3, c_rate := 1, current := 2 }]
    nominal_capacity_Ah := 2, dod_lower := 0, dod_upper := 1 }

/-- Concrete fixture: a dataset whose only row lies outside the cropping
window, so the cropped view is empty. -/
def dEmptyCrop : DischargeData :=
  { data := [{ dod := 5, soc := -4, v := 4, c_rate := 1, current := 2 }]
    nominal_capacity_Ah := 2, dod_lower := 0, dod_upper := 1 }

/-- Concrete fixture: one row exactly on the lower cropping bound plus one
interior row. -/
def dBoundary : DischargeData :=
  { data := [{ dod := 0, soc := 1, v := 4, c_rate := 1, current := 2 },
             { dod := 1/2, soc := 1/2, v := 7/2, c_rate := 1, current := 2 }]
    nominal_capacity_Ah := 2, dod_lower := 0, dod_upper := 1 }

/-- Concrete fixture: reversed cropping bounds (an empty window). -/
def dRevBounds : DischargeData :=
  { data := [{ dod := 1/2, soc := 1/2, v := 7/2, c_rate := 1, current := 2 }]
    nominal_capacity_Ah := 2, dod_lower := 1, dod_upper := 0 }

/-- Concrete fixture: a store holding one table, referenced by `dRefW`. -/
def storeW : TableStore :=
  ⟨[[{ dod := 1/2, soc := 1/2, v := 7/2, c_rate := 1, current := 2 }]]⟩

/-- Concrete fixture: a `DischargeData` whose `_data` is table 0 of `storeW`. -/
def dRefW : DischargeDataRef :=
  { dataRef := 0, nominal_capacity_Ah := 2, dod_lower := 0, dod_upper := 1 }

theorem storeGet_set_ne (s : TableStore) (i j : ℕ) (t : List Row) (h : i ≠ j) :
    storeGet (storeSet s i t) j = storeGet s j := by
  simp [storeGet, storeSet, List.getD_eq_getElem?_getD, List.getElem?_set_ne h]

theorem storeGet_append_left (l l₂ : List (List Row)) (j : ℕ) (h : j < l.length) :
    storeGet ⟨l ++ l₂⟩ j = storeGet ⟨l⟩ j := by
  simp [storeGet, List.getD_eq_getElem?_getD, List.getElem?_append_left h]

/-- C5: for any dataset and any current values of the bounds, the restricted
view consists of exactly the rows of the full table whose `dod` satisfies the
strict inequalities `dod_lower < dod < dod_upper`; rows sitting exactly on a
bound are excluded, and an inverted (empty) window gives an empty list
rather than an error (the embedding is a total function). -/
theorem claim_C5_restricted_view (d : DischargeData) :
    (∀ r : Row, r ∈ dataCropped d ↔
        r ∈ d.data ∧ d.dod_lower < r.dod ∧ r.dod < d.dod_upper) ∧
    (∀ r : Row, r ∈ d.data → (r.dod = d.dod_lower ∨ r.dod = d.dod_upper) →
        r ∉ dataCropped d) ∧
    (d.dod_upper ≤ d.dod_lower → dataCropped d = []) := by
  refine ⟨fun r => ?_, fun r hr hb hmem => ?_, fun hle => ?_⟩
  · simp [dataCropped, cropFilter, List.mem_filter, and_assoc]
  · rcases hb with h | h <;>
      simp [dataCropped, cropFilter, List.mem_filter, h, lt_irrefl] at hmem
  · rw [dataCropped, cropFilter, List.filter_eq_nil_iff]
    intro r _
    simp only [Bool.and_eq_true, decide_eq_true_eq, not_and]
    intro h1 h2
    exact absurd (h1.trans h2) (not_lt.mpr hle)

/-- Witness for C5 at concrete inputs: the boundary row of `dBoundary` is
excluded from the cropped view, and the inverted window of `dRevBounds`
yields the empty table. -/
theorem claim_C5_witness :
    (({ dod := 0, soc := 1, v := 4, c_rate := 1, current := 2 } : Row) ∉
        dataCropped dBoundary) ∧
    dataCropped dRevBounds = [] :=
  ⟨(claim_C5_restricted_view dBoundary).2.1 _ (by with_unfolding_all decide)
      (Or.inl rfl),
   (claim_C5_restricted_view dRevBounds).2.2 (by with_unfolding_all decide)⟩

/-- C10: `data_cropped` hands back an independent copy.  Overwriting the
returned table (at its fresh store index) leaves the dataset's stored `_data`
untouched, so a later `data` read or `data_cropped` call (same bounds) sees
the same rows as before the mutation. -/
theorem claim_C10_cropped_copy (d : DischargeDataRef) (s : TableStore)
    (h : d.dataRef < s.tables.length) (mutated : List Row) :
    storeGet (storeSet (croppedAlloc d s).2.2 (croppedAlloc d s).2.1 mutated)
        d.dataRef = storeGet s d.dataRef ∧
    (croppedAlloc d (storeSet (croppedAlloc d s).2.2 (croppedAlloc d s).2.1
        mutated)).1 = (croppedAlloc d s).1 := by
  have hne : s.tables.length ≠ d.dataRef := by omega
  have h1 : storeGet (storeSet
      ⟨s.tables ++ [cropFilter (storeGet s d.dataRef) d.dod_lower d.dod_upper]⟩
      s.tables.length mutated) d.dataRef = storeGet s d.dataRef := by
    rw [storeGet_set_ne _ _ _ _ hne]
    exact storeGet_append_left _ _ _ h
  refine ⟨h1, ?_⟩
  simp only [croppedAlloc]
  rw [h1]

/-- Witness for C10 at a concrete store: wiping the copied table leaves the
dataset's stored table (and a repeated `data_cropped`) unchanged. -/
theorem claim_C10_witness :
    storeGet (storeSet (croppedAlloc dRefW storeW).2.2
        (croppedAlloc dRefW storeW).2.1 []) dRefW.dataRef
      = storeGet storeW dRefW.dataRef ∧
    (croppedAlloc dRefW (storeSet (croppedAlloc dRefW storeW).2.2
        (croppedAlloc dRefW storeW).2.1 [])).1 = (croppedAlloc dRefW storeW).1 :=
  claim_C10_cropped_copy dRefW storeW (by with_unfolding_all decide) []

theorem loadCurve_eq_spec (conv : DischargeVar) (cap c : ℚ) (pts : List (ℚ × ℚ)) :
    loadCurve conv cap c pts = pts.map (specSample conv cap c) := by
  cases conv with
  | DOD => rfl
  | MAH => rfl
  | AH => rfl
  | SOC =>
      simp only [loadCurve]
      induction pts with
      | nil => rfl
      | cons p t ih =>
          simp only [List.map_cons, ih]
          congr 1
          show Row.mk (1 - p.1) p.1 p.2 c (c * cap)
            = Row.mk (1 - p.1) (1 - (1 - p.1)) p.2 c (c * cap)
          congr 1
          ring

theorem parseRate_error_cases (label : String) (e : PyError)
    (h : parseRate label = .error e) : e = .valueError ∨ e = .indexError := by
  unfold parseRate at h
  cases hg : (pySplitWs label.data).getLast? with
  | none =>
      simp only [hg] at h
      exact Or.inr (Except.error.inj h).symm
  | some tok =>
      simp only [hg] at h
      cases hf : pyFloat tok with
      | none =>
          simp only [hf] at h
          exact Or.inl (Except.error.inj h).symm
      | some q =>
          simp only [hf] at h
          exact Except.noConfusion h

/-- C4: the per-curve conversion applied by `load_data` agrees pointwise with
the claim's conversion table (`specDod`/`specSample`), and every row of a
successfully loaded table satisfies the derived-column equations
`soc = 1 - dod` and `current = c_rate * nominal_capacity`. -/
theorem claim_C4_load_conversions (conv : DischargeVar) (cap : ℚ) :
    (∀ (c : ℚ) (pts : List (ℚ × ℚ)),
        loadCurve conv cap c pts = pts.map (specSample conv cap c)) ∧
    (∀ (sheets : List Sheet) (rows : List Row),
        loadData conv cap sheets = .ok rows →
        ∀ r ∈ rows, r.soc = 1 - r.dod ∧ r.current = r.c_rate * cap) := by
  refine ⟨fun c pts => loadCurve_eq_spec conv cap c pts, fun sheets => ?_⟩
  induction sheets with
  | nil =>
      intro rows h r hr
      simp only [loadData] at h
      cases h
      cases hr
  | cons s rest ih =>
      intro rows h r hr
      simp only [loadData] at h
      cases hp : parseRate s.1 with
      | error e =>
          simp only [hp] at h
          exact Except.noConfusion h
      | ok c =>
          simp only [hp] at h
          cases hm : loadData conv cap rest with
          | error e =>
              simp only [hm] at h
              exact Except.noConfusion h
          | ok more =>
              simp only [hm] at h
              cases h
              rcases List.mem_append.mp hr with hl | hr2
              · rw [loadCurve_eq_spec] at hl
                rcases List.mem_map.mp hl with ⟨p, _, rfl⟩
                exact ⟨by simp [specSample], by simp [specSample]⟩
              · exact ih more hm r hr2

/-- Witness for C4 at a concrete load: the single row produced from sheet
`c_rate 2` under the DoD convention satisfies the derived-column equations. -/
theorem claim_C4_witness :
    ({ dod := 0, soc := 1, v := 4, c_rate := 2, current := 4 } : Row).soc
        = 1 - ({ dod := 0, soc := 1, v := 4, c_rate := 2, current := 4 } : Row).dod ∧
    ({ dod := 0, soc := 1, v := 4, c_rate := 2, current := 4 } : Row).current
        = ({ dod := 0, soc := 1, v := 4, c_rate := 2, current := 4 } : Row).c_rate * 2 :=
  (claim_C4_load_conversions .DOD 2).2 [((r"c_rate 2"), [(0, 4)])]
    [{ dod := 0, soc := 1, v := 4, c_rate := 2, current := 4 }]
    (by with_unfolding_all decide) _ (by with_unfolding_all decide)

/-- Counterexample for C9 at concrete inputs: a sheet whose rate label does
not parse makes `load_data` raise ValueError (Python's `float`), not the
spec's `MalformedSourceError` (no such class exists in the code); and a sheet
holding a single sample loads without any error, although the claim requires
a failure for curves with fewer than 2 samples. -/
theorem claim_C9_counterexample :
    loadData .DOD 2 [((r"c_rate abc"), [(0, 4), (1, 3)])]
        ≠ .error .malformedSourceError ∧
    loadData .DOD 2 [((r"c_rate 2"), [(0, 4)])] =
      .ok [{ dod := 0, soc := 1, v := 4, c_rate := 2, current := 4 }] := by
  with_unfolding_all decide

/-- C9 as amended: `load_data` fails exactly when some sheet's rate label
fails to parse, and the exception is the builtin ValueError (bad numeral) or
IndexError (whitespace-only sheet name) coming from that label — never a
`MalformedSourceError`, and never a too-few-samples check. -/
theorem claim_C9_load_failure_modes (conv : DischargeVar) (cap : ℚ)
    (sheets : List Sheet) :
    (∀ e : PyError, loadData conv cap sheets = .error e →
        (e = .valueError ∨ e = .indexError) ∧
        ∃ s ∈ sheets, parseRate s.1 = .error e) ∧
    ((∀ s ∈ sheets, ∃ c : ℚ, parseRate s.1 = .ok c) →
        ∃ rows : List Row, loadData conv cap sheets = .ok rows) := by
  induction sheets with
  | nil =>
      refine ⟨fun e h => ?_, fun _ => ⟨[], rfl⟩⟩
      simp only [loadData] at h
      exact Except.noConfusion h
  | cons s rest ih =>
      constructor
      · intro e h
        simp only [loadData] at h
        cases hp : parseRate s.1 with
        | error e' =>
            simp only [hp] at h
            have he : e' = e := Except.error.inj h
            rw [he] at hp
            exact ⟨parseRate_error_cases s.1 e hp,
              ⟨s, List.mem_cons_self s rest, hp⟩⟩
        | ok c =>
            simp only [hp] at h
            cases hm : loadData conv cap rest with
            | error e' =>
                simp only [hm] at h
                have he : e' = e := Except.error.inj h
                rw [he] at hm
                rcases (ih.1 e hm) with ⟨hcases, s', hs', hps'⟩
                exact ⟨hcases, ⟨s', List.mem_cons_of_mem s hs', hps'⟩⟩
            | ok more =>
                simp only [hm] at h
                exact Except.noConfusion h
      · intro hall
        rcases hall s (List.mem_cons_self s rest) with ⟨c, hc⟩
        rcases ih.2 (fun s' hs' => hall s' (List.mem_cons_of_mem s hs')) with
          ⟨rows, hrows⟩
        refine ⟨loadCurve conv cap c s.2 ++ rows, ?_⟩
        simp only [loadData, hc, hrows]

/-- Witness for C9's amended theorem at a concrete failing load: the
exception is ValueError and it originates from the unparseable sheet name. -/
theorem claim_C9_witness :
    (PyError.valueError = PyError.valueError ∨
      PyError.valueError = PyError.indexError) ∧
    ∃ s ∈ ([((r"c_rate abc"), [((0 : ℚ), (4 : ℚ)), (1, 3)])] : List Sheet),
      parseRate s.1 = .error .valueError :=
  (claim_C9_load_failure_modes .DOD 2 _).1 .valueError
    (by with_unfolding_all decide)

theorem lstsqMinNorm_length (cols : List (List ℚ)) (y : List ℚ) :
    (lstsqMinNorm cols y).length = cols.length := by
  simp [lstsqMinNorm]

theorem linReg_coef_length (cols : List (List ℚ)) (y : List ℚ) :
    (linReg cols y).2.length = cols.length := by
  simp [linReg, lstsqMinNorm_length]

theorem polyGetX_length (d : DischargeData) (Ne Nr : ℕ) :
    (polyGetX d Ne Nr).length = Ne + (Nr + 1) := by
  simp [polyGetX]

theorem wVecOf_length (d : DischargeData) (Ne Nr : ℕ) :
    (wVecOf d Ne Nr).length = Ne + Nr + 2 := by
  simp only [wVecOf, List.length_cons, linReg_coef_length, polyGetX_length]
  omega

theorem polyvalNp_reverse (l : List ℚ) (x : ℚ) :
    polyvalNp l.reverse x = evalPolyConstFirst l x := by
  unfold polyvalNp evalPolyConstFirst
  induction l with
  | nil => rfl
  | cons a t ih =>
      rw [List.reverse_cons, List.foldl_append]
      simp only [List.foldl_cons, List.foldl_nil]
      rw [ih]
      rw [List.length_cons, List.range_succ_eq_map]
      simp only [List.map_cons, List.sum_cons, List.map_map, Function.comp_def,
        List.getD_cons_zero, List.getD_cons_succ, pow_zero, pow_succ, mul_one]
      rw [← List.sum_map_mul_right]
      simp only [mul_assoc]
      ring

/-- C3: after a successful `fit_model(Ne, Nr)` — the OLS of the cropped
voltage column on the `get_X(Ne, Nr)` design matrix with an intercept — the
stored `w_vec` has length `Ne+Nr+2`; `alpha_coeff` (its first `Ne+1` entries,
the intercept followed by the `dod^1..dod^Ne` coefficients) has length
`Ne+1`; `beta_coeff` (the remaining entries, the `-I·dod^0..-I·dod^Nr`
coefficients) has length `Nr+1`; and `OCV`/`Rs` evaluate those
constant-term-first vectors as `Σ αᵢ·dodⁱ` and `Σ βⱼ·dodʲ`. -/
theorem claim_C3_poly_fit_coefficients (st : PolyFit) (Ne Nr : ℕ) (st' : PolyFit)
    (h : polyFitModel Ne Nr st = .ok st') :
    ∃ w alpha beta, st'.w_vec = some w ∧ w.length = Ne + Nr + 2 ∧
      alphaCoeff st' = .ok alpha ∧ betaCoeff st' = .ok beta ∧
      alpha = w.take (Ne + 1) ∧ beta = w.drop (Ne + 1) ∧
      alpha.length = Ne + 1 ∧ beta.length = Nr + 1 ∧
      (∀ dod : ℚ, polyOCV st' dod = .ok (evalPolyConstFirst alpha dod)) ∧
      (∀ dod : ℚ, polyRs st' dod = .ok (evalPolyConstFirst beta dod)) := by
  unfold polyFitModel at h
  by_cases hemp : (dataCropped st.data).isEmpty
  · rw [if_pos hemp] at h
    exact Except.noConfusion h
  · rw [if_neg hemp] at h
    have hst : st' = polyFitted Ne Nr st := (Except.ok.inj h).symm
    subst hst
    refine ⟨wVecOf st.data Ne Nr, (wVecOf st.data Ne Nr).take (Ne + 1),
      (wVecOf st.data Ne Nr).drop (Ne + 1), rfl, wVecOf_length st.data Ne Nr,
      rfl, rfl, rfl, rfl, ?_, ?_, ?_, ?_⟩
    · rw [List.length_take, wVecOf_length]
      omega
    · rw [List.length_drop, wVecOf_length]
      omega
    · intro dod
      show Except.map _ _ = _
      rw [show alphaCoeff (polyFitted Ne Nr st)
          = .ok ((wVecOf st.data Ne Nr).take (Ne + 1)) from rfl]
      show Except.ok (polyvalNp ((wVecOf st.data Ne Nr).take (Ne + 1)).reverse dod) = _
      rw [polyvalNp_reverse]
    · intro dod
      show Except.map _ _ = _
      rw [show betaCoeff (polyFitted Ne Nr st)
          = .ok ((wVecOf st.data Ne Nr).drop (Ne + 1)) from rfl]
      show Except.ok (polyvalNp ((wVecOf st.data Ne Nr).drop (Ne + 1)).reverse dod) = _
      rw [polyvalNp_reverse]

/-- Witness for C3 at a concrete fit: `fit_model(Ne=7, Nr=3)` on `dFit`
succeeds and yields coefficient vectors of lengths 8 and 4. -/
theorem claim_C3_witness :
    ∃ w alpha beta, (polyFitted 7 3 (polyInit dFit)).w_vec = some w ∧
      w.length = 12 ∧
      alphaCoeff (polyFitted 7 3 (polyInit dFit)) = .ok alpha ∧
      betaCoeff (polyFitted 7 3 (polyInit dFit)) = .ok beta ∧
      alpha = w.take 8 ∧ beta = w.drop 8 ∧
      alpha.length = 8 ∧ beta.length = 4 ∧
      (∀ dod : ℚ, polyOCV (polyFitted 7 3 (polyInit dFit)) dod
        = .ok (evalPolyConstFirst alpha dod)) ∧
      (∀ dod : ℚ, polyRs (polyFitted 7 3 (polyInit dFit)) dod
        = .ok (evalPolyConstFirst beta dod)) :=
  claim_C3_poly_fit_coefficients (polyInit dFit) 7 3 _ (by with_unfolding_all rfl)

/-- Counterexample for C6 at a concrete unfit model: querying `OCV`, `Rs` or
`modeled_terminal_voltage` before `fit_model` raises AttributeError (the
`w_vec` attribute was never assigned), not the spec's `ModelNotFitError`
(which the code never defines). -/
theorem claim_C6_counterexample :
    polyOCV (polyInit dFit) (1/2) = .error (.attributeError .w_vec) ∧
    polyOCV (polyInit dFit) (1/2) ≠ .error .modelNotFitError ∧
    polyRs (polyInit dFit) (1/2) ≠ .error .modelNotFitError ∧
    polyMTV (polyInit dFit) (1/2) 1 ≠ .error .modelNotFitError := by
  with_unfolding_all decide

/-- C6 as amended: on a polynomial estimator on which `fit_model` has never
been invoked, every call to `OCV`, `Rs` or `modeled_terminal_voltage` fails
with AttributeError from the unset `w_vec` attribute. -/
theorem claim_C6_unfit_attribute_error (d : DischargeData) (dod c_rate : ℚ) :
    polyOCV (polyInit d) dod = .error (.attributeError .w_vec) ∧
    polyRs (polyInit d) dod = .error (.attributeError .w_vec) ∧
    polyMTV (polyInit d) dod c_rate = .error (.attributeError .w_vec) :=
  ⟨rfl, rfl, rfl⟩

/-- Counterexample for C8: with an empty cropped view (zero rows, hence fewer
rows than design-matrix columns) `fit_model` raises sklearn's ValueError, not
the spec's `InsufficientDataError`; and with 2 cropped rows against a
9-column design matrix (`Ne=4, Nr=4`) — an underdetermined system — it does
not fail at all. -/
theorem claim_C8_counterexample :
    (polyFitModel 2 2 (polyInit dEmptyCrop) = .error .valueError ∧
      polyFitModel 2 2 (polyInit dEmptyCrop) ≠ .error .insufficientDataError) ∧
    ((dataCropped dFit).length < (polyGetX dFit 4 4).length ∧
      polyFitModel 4 4 (polyInit dFit) = .ok (polyFitted 4 4 (polyInit dFit))) := by
  have h1 : polyFitModel 2 2 (polyInit dEmptyCrop) = .error .valueError := by
    with_unfolding_all rfl
  refine ⟨⟨h1, ?_⟩, by with_unfolding_all decide, by with_unfolding_all rfl⟩
  rw [h1]
  intro hh
  exact absurd (Except.error.inj hh) (by decide)

/-- C8 as amended: `fit_model` performs no row-versus-column check and the
code defines no `InsufficientDataError`.  It fails — with sklearn's
ValueError from validating a 0-sample array — exactly when the cropped view
is empty, and succeeds on every nonempty cropped view regardless of how many
columns the design matrix has (the lstsq kernel solves underdetermined
systems by minimum-norm). -/
theorem claim_C8_fit_no_row_check (st : PolyFit) (Ne Nr : ℕ) :
    (dataCropped st.data = [] → polyFitModel Ne Nr st = .error .valueError) ∧
    (dataCropped st.data ≠ [] →
      polyFitModel Ne Nr st = .ok (polyFitted Ne Nr st)) := by
  constructor
  · intro h
    unfold polyFitModel
    rw [h]
    rfl
  · intro h
    cases hc : dataCropped st.data with
    | nil => exact absurd hc h
    | cons a t =>
        unfold polyFitModel
        rw [hc]
        rfl

/-- Witness for C8's amended theorem: `fit_model(9, 9)` on the 2-row cropped
view of `dFit` (a 19-column design matrix) succeeds. -/
theorem claim_C8_witness :
    polyFitModel 9 9 (polyInit dFit) = .ok (polyFitted 9 9 (polyInit dFit)) :=
  (claim_C8_fit_no_row_check (polyInit dFit) 9 9).2 (by with_unfolding_all decide)

/-- C1 (evaluating the code at its failure): `modeled_terminal_voltage`
never returns the claimed value `OCV(dod) - rate·capacity·Rs(dod)`; on both
estimators it raises AttributeError, because models.py reads
`self.data.nominal_capacity_mAh` while `DischargeData` defines only
`nominal_capacity_Ah`.  For the polynomial estimator the failure occurs
after any successful fit (the `OCV` factor evaluates, then the attribute
lookup raises); for the non-parametric estimator, construction itself
already fails on the same lookup. -/
theorem claim_C1_mtv_attribute_error :
    (∀ (st st' : PolyFit) (Ne Nr : ℕ), polyFitModel Ne Nr st = .ok st' →
      ∀ dod c_rate : ℚ,
        polyMTV st' dod c_rate = .error (.attributeError .nominal_capacity_mAh)) ∧
    (∀ (d : DischargeData) (dod c_rate : ℚ),
      npMTV d dod c_rate = .error (.attributeError .nominal_capacity_mAh)) := by
  constructor
  · intro st st' Ne Nr h dod c_rate
    unfold polyFitModel at h
    by_cases hemp : (dataCropped st.data).isEmpty
    · rw [if_pos hemp] at h
      exact Except.noConfusion h
    · rw [if_neg hemp] at h
      have hst : st' = polyFitted Ne Nr st := (Except.ok.inj h).symm
      subst hst
      rfl
  · intro d dod c_rate
    rfl

/-- Witness for C1 at a concrete fitted model: after `fit_model(1, 0)` on
`dFit`, `modeled_terminal_voltage(1/2, 1)` raises AttributeError for
`nominal_capacity_mAh`. -/
theorem claim_C1_witness :
    polyMTV (polyFitted 1 0 (polyInit dFit)) (1/2) 1
      = .error (.attributeError .nominal_capacity_mAh) :=
  claim_C1_mtv_attribute_error.1 (polyInit dFit) _ 1 0
    (by with_unfolding_all rfl) (1/2) 1

/-- C2 (evaluating the code at its failure): `NonParametric.__init__` always
raises AttributeError at `self.x = self.c_rates*(self.data.nominal_capacity_mAh/1000)`
— `DischargeData` has no `nominal_capacity_mAh` attribute — so no
non-parametric estimator is ever constructed and its `OCV`/`Rs` line-fit is
unreachable. -/
theorem claim_C2_nonparametric_init_fails (d : DischargeData) :
    npInit d = .error (.attributeError .nominal_capacity_mAh) :=
  rfl

/-- Counterexample for C7 at a concrete single-rate dataset: the cropped view
of `dFit` carries exactly one distinct rate, yet `OCV(1/2)` / `Rs(1/2)` do
not fail with the spec's `InsufficientRatesError` (no such class exists) —
they fail with AttributeError already at construction. -/
theorem claim_C7_counterexample :
    dedupFirst ((dataCropped dFit).map (fun r => r.c_rate)) = [1] ∧
    npOCV dFit (1/2) = .error (.attributeError .nominal_capacity_mAh) ∧
    npOCV dFit (1/2) ≠ .error .insufficientRatesError ∧
    npRs dFit (1/2) ≠ .error .insufficientRatesError := by
  with_unfolding_all decide

/-- C7 as amended: on every dataset — whatever the number of distinct rates —
any attempted `OCV` or `Rs` call on the non-parametric estimator fails with
AttributeError, because construction dies on the `nominal_capacity_mAh`
lookup before any rate-count condition could matter. -/
theorem claim_C7_np_query_attribute_error (d : DischargeData) (dod : ℚ) :
    npOCV d dod = .error (.attributeError .nominal_capacity_mAh) ∧
    npRs d dod = .error (.attributeError .nominal_capacity_mAh) :=
  ⟨rfl, rfl⟩
